import Mathlib

/-!
Shallow embedding of `strategy_game.py`, a turn-based supply-chain
simulation.  The round engine is `simulate_round`; the surrounding
Streamlit app only ever invokes it through a guarded path (the decision
form is rendered only while the game is not over, and the order-quantity
widget enforces the bounds 0..1000), embedded here as `advance_round`.

Python floats (yield fractions, damage percentages) are modelled as
rationals; Python `int()` truncation toward zero is `py_int`.  Machine
randomness is replaced by an explicit `Draws` record holding the four
per-round stochastic outcomes, exactly the seam the round logic consumes:
the chosen yield fraction, the two Bernoulli outcomes
(`random.random() < chance`), and the demand integer.
-/

namespace StrategyGame

/-- Game configuration constants (lines 5-14 of the source). -/
def MAX_ROUNDS : ℤ := 12

def INITIAL_CASH : ℤ := 50000

def INITIAL_INVENTORY : ℤ := 100

def INITIAL_SATISFACTION : ℤ := 80

def HOLDING_COST_PER_UNIT : ℤ := 2

def STOCKOUT_PENALTY_PER_UNIT : ℤ := 30

def SELLING_PRICE_PER_UNIT : ℤ := 50

def DEMAND_RANGE : ℤ × ℤ := (80, 220)

def LOW_SATISFACTION_THRESHOLD : ℤ := 30

def BANKRUPTCY_THRESHOLD : ℤ := 0

/-- Bound enforced by the order-quantity widget (`st.number_input`,
`min_value=0, max_value=1000`). -/
def ORDER_QUANTITY_MAX : ℤ := 1000

/-- A supplier record: unit cost plus the discrete yield distribution. -/
structure Supplier where
  cost : ℤ
  yield_weights : List ℚ
  yield_percentages : List ℚ
  deriving DecidableEq, Repr

/-- A transporter record: unit cost, disruption and damage parameters. -/
structure Transporter where
  cost : ℤ
  disruption_chance : ℚ
  disruption_fee : ℤ
  damage_chance : ℚ
  damage_percentage : ℚ
  deriving DecidableEq, Repr

/-- "Alpha Goods (Reliable & Pricey)" supplier entry. -/
def alpha_goods : Supplier :=
  { cost := 20, yield_weights := [1], yield_percentages := [1] }

/-- "Beta Stock (Standard)" supplier entry. -/
def beta_stock : Supplier :=
  { cost := 15, yield_weights := [9/10, 1/10], yield_percentages := [1, 7/10] }

/-- "Gamma Source (Cheap & Risky)" supplier entry. -/
def gamma_source : Supplier :=
  { cost := 10, yield_weights := [6/10, 3/10, 1/10],
    yield_percentages := [1, 1/2, 1/5] }

/-- The SUPPLIERS catalog dictionary. -/
def SUPPLIERS : List (String × Supplier) :=
  [("Alpha Goods (Reliable & Pricey)", alpha_goods),
   ("Beta Stock (Standard)", beta_stock),
   ("Gamma Source (Cheap & Risky)", gamma_source)]

/-- "Express Freight (Fast & Secure)" transporter entry. -/
def express_freight : Transporter :=
  { cost := 8, disruption_chance := 1/20, disruption_fee := 200,
    damage_chance := 1/100, damage_percentage := 1/20 }

/-- "Standard Shipping (Balanced)" transporter entry. -/
def standard_shipping : Transporter :=
  { cost := 5, disruption_chance := 3/20, disruption_fee := 150,
    damage_chance := 3/100, damage_percentage := 1/10 }

/-- "Budget Haul (Slow & Risky)" transporter entry. -/
def budget_haul : Transporter :=
  { cost := 3, disruption_chance := 3/10, disruption_fee := 100,
    damage_chance := 1/20, damage_percentage := 3/20 }

/-- The TRANSPORTERS catalog dictionary. -/
def TRANSPORTERS : List (String × Transporter) :=
  [("Express Freight (Fast & Secure)", express_freight),
   ("Standard Shipping (Balanced)", standard_shipping),
   ("Budget Haul (Slow & Risky)", budget_haul)]

/-- `get_supplier_details`: dictionary lookup (raises on a missing key,
hence `Option`). -/
def get_supplier_details (name : String) : Option Supplier :=
  (SUPPLIERS.lookup name)

/-- `get_transport_details`: dictionary lookup. -/
def get_transport_details (name : String) : Option Transporter :=
  (TRANSPORTERS.lookup name)

/-- The possible values of `st.session_state.game_over_message`: the empty
initial string or one of the three game-over strings (the customer-exodus
string interpolates the satisfaction value). -/
inductive GameOverMessage where
  | empty : GameOverMessage
  | bankruptcy : GameOverMessage
  | customerExodus (satisfaction : ℤ) : GameOverMessage
  | endOfTerm : GameOverMessage
  deriving DecidableEq, Repr

/-- One record of `st.session_state.history`: every quantity computed
during one round's resolution (line 150-166 of the source). -/
structure LedgerEntry where
  round : ℤ
  cash : ℤ
  inventory : ℤ
  satisfaction : ℤ
  demand : ℤ
  procured : ℤ
  received : ℤ
  sold : ℤ
  stockout_units : ℤ
  sourcing_cost : ℤ
  transport_cost : ℤ
  holding_cost : ℤ
  stockout_cost : ℤ
  round_total_cost : ℤ
  revenue : ℤ
  deriving DecidableEq, Repr

/-- The per-session mutable state held in `st.session_state` (the
player-facing `round_events` message list is presentation output and is
not modelled). -/
structure GameState where
  round : ℤ
  cash : ℤ
  inventory : ℤ
  satisfaction : ℤ
  total_costs_accumulated : ℤ
  game_over : Bool
  game_over_message : GameOverMessage
  history : List LedgerEntry
  deriving DecidableEq, Repr

/-- `initialize_game`: the initial session state (lines 63-73). -/
def init_game : GameState :=
  { round := 1, cash := INITIAL_CASH, inventory := INITIAL_INVENTORY,
    satisfaction := INITIAL_SATISFACTION, total_costs_accumulated := 0,
    game_over := false, game_over_message := GameOverMessage.empty,
    history := [] }

/-- The four stochastic outcomes one round consumes: the sampled yield
fraction, the two Bernoulli results `random.random() < chance`, and the
demand from `random.randint(80, 220)`. -/
structure Draws where
  yield_percentage : ℚ
  disrupted : Bool
  damaged : Bool
  demand : ℤ
  deriving DecidableEq, Repr

/-- Python `int()` on a float: truncation toward zero. -/
def py_int (x : ℚ) : ℤ :=
  if 0 ≤ x then x.floor else -((-x).floor)

/-- `procured_quantity = int(quantity_ordered * chosen_yield_percentage)`. -/
def procured_quantity (quantity_ordered : ℤ) (yield_pct : ℚ) : ℤ :=
  py_int ((quantity_ordered : ℚ) * yield_pct)

/-- Transport cost: base cost plus the flat disruption fee when the
disruption roll fires (lines 100-106).  The fee is added independently of
the procured quantity. -/
def transport_cost_final (tr : Transporter) (procured : ℤ)
    (disrupted : Bool) : ℤ :=
  if disrupted then procured * tr.cost + tr.disruption_fee
  else procured * tr.cost

/-- Received quantity after the damage roll (lines 108-111): damage
applies only when the roll fires and the quantity is positive, and
removes `int(received * damage_percentage)` units. -/
def received_quantity (tr : Transporter) (procured : ℤ)
    (damaged : Bool) : ℤ :=
  if damaged ∧ 0 < procured then
    procured - py_int ((procured : ℚ) * tr.damage_percentage)
  else procured

/-- `units_sold = min(inventory_at_fulfillment, current_demand)`. -/
def units_sold (available demand : ℤ) : ℤ :=
  min available demand

/-- Satisfaction update (lines 126-134): linear stockout penalty or flat
bonus, then the clamp `max(0, min(100, satisfaction))` on every branch. -/
def updated_satisfaction (sat unmet : ℤ) : ℤ :=
  max 0 (min 100 (if 0 < unmet then sat - unmet * 2 else sat + 5))

/-- The ledger entry one round appends to `st.session_state.history`:
every intermediate quantity of the resolution (lines 88-166). -/
def round_ledger (sup : Supplier) (quantity_ordered : ℤ)
    (tr : Transporter) (d : Draws) (s : GameState) : LedgerEntry :=
  let procured := procured_quantity quantity_ordered d.yield_percentage
  let sourcing := procured * sup.cost
  let transport := transport_cost_final tr procured d.disrupted
  let received := received_quantity tr procured d.damaged
  let available := s.inventory + received
  let sold := units_sold available d.demand
  let revenue := sold * SELLING_PRICE_PER_UNIT
  let unmet := d.demand - sold
  let sat2 := updated_satisfaction s.satisfaction unmet
  let stockout := unmet * STOCKOUT_PENALTY_PER_UNIT
  let ending := available - sold
  let holding := ending * HOLDING_COST_PER_UNIT
  let total := sourcing + transport + stockout + holding
  { round := s.round, cash := s.cash + revenue - total, inventory := ending,
    satisfaction := sat2, demand := d.demand, procured := procured,
    received := received, sold := sold, stockout_units := unmet,
    sourcing_cost := sourcing, transport_cost := transport,
    holding_cost := holding, stockout_cost := stockout,
    round_total_cost := total, revenue := revenue }

/-- Game-over check (lines 169-177): bankruptcy, then customer exodus,
then end of term, first match winning; otherwise the flag and message are
left as they were. -/
def check_game_over (cash sat round : ℤ)
    (prev : Bool × GameOverMessage) : Bool × GameOverMessage :=
  if cash ≤ BANKRUPTCY_THRESHOLD then (true, GameOverMessage.bankruptcy)
  else if sat ≤ LOW_SATISFACTION_THRESHOLD then
    (true, GameOverMessage.customerExodus sat)
  else if MAX_ROUNDS ≤ round then (true, GameOverMessage.endOfTerm)
  else prev

/-- `simulate_round`: one round of the game (lines 81-181).  Resolves the
round, appends the ledger entry, runs the game-over checks on the updated
cash and satisfaction, and increments the round counter only when the
game is not over. -/
def simulate_round (sup : Supplier) (quantity_ordered : ℤ)
    (tr : Transporter) (d : Draws) (s : GameState) : GameState :=
  let e := round_ledger sup quantity_ordered tr d s
  let go := check_game_over e.cash e.satisfaction s.round
    (s.game_over, s.game_over_message)
  { round := if go.1 then s.round else s.round + 1,
    cash := e.cash, inventory := e.inventory,
    satisfaction := e.satisfaction,
    total_costs_accumulated := s.total_costs_accumulated + e.round_total_cost,
    game_over := go.1, game_over_message := go.2,
    history := s.history ++ [e] }

/-- Rejection reasons of the guarded round-advancing path. -/
inductive AdvanceError where
  | sessionOver : AdvanceError
  | invalidQuantity : AdvanceError
  deriving DecidableEq, Repr

/-- The only path through which the app advances a round: the decision
form is rendered only while `game_over` is false (the `else` branch at
line 248), and the order-quantity widget rejects values outside 0..1000
(lines 270-277); inside those guards the submit handler calls
`simulate_round` (line 290). -/
def advance_round (sup : Supplier) (quantity_ordered : ℤ)
    (tr : Transporter) (d : Draws) (s : GameState) :
    Except AdvanceError GameState :=
  if s.game_over then Except.error AdvanceError.sessionOver
  else if quantity_ordered < 0 ∨ ORDER_QUANTITY_MAX < quantity_ordered then
    Except.error AdvanceError.invalidQuantity
  else Except.ok (simulate_round sup quantity_ordered tr d s)

/-- The session state after a call of the round-advancing path: the new
state on success, the untouched previous state on rejection. -/
def advance_round_state (sup : Supplier) (quantity_ordered : ℤ)
    (tr : Transporter) (d : Draws) (s : GameState) : GameState :=
  match advance_round sup quantity_ordered tr d s with
  | Except.ok s2 => s2
  | Except.error _ => s

/-- `final_score` (line 198): `cash + satisfaction * 100 -
total_costs_accumulated / 10`, with Python true division over ℚ. -/
def final_score (s : GameState) : ℚ :=
  (s.cash : ℚ) + (s.satisfaction : ℚ) * 100 -
    (s.total_costs_accumulated : ℚ) / 10

/-- A state whose next round drives both cash and satisfaction below
their thresholds at once (used to exercise the tie between the game-over
conditions). -/
def sample_broke_state : GameState :=
  { round := 1, cash := 0, inventory := 0, satisfaction := 0,
    total_costs_accumulated := 0, game_over := false,
    game_over_message := GameOverMessage.empty, history := [] }

/-- The fresh session at its final month (round counter 12). -/
def sample_round12_state : GameState :=
  { init_game with round := 12 }

/-- A concrete finished session state. -/
def sample_over_state : GameState :=
  { round := 12, cash := 1000, inventory := 0, satisfaction := 50,
    total_costs_accumulated := 100, game_over := true,
    game_over_message := GameOverMessage.endOfTerm, history := [] }

/-- States reachable from the initial state through the guarded
round-advancing path. -/
inductive Reachable : GameState → Prop where
  | init : Reachable init_game
  | step {s s2 : GameState} (sup : Supplier) (quantity_ordered : ℤ)
      (tr : Transporter) (d : Draws) : Reachable s →
      advance_round sup quantity_ordered tr d s = Except.ok s2 →
      Reachable s2

/-! Helper lemmas about `py_int` and the per-round quantities.  The
arithmetic of `Rat` is restored to its definitional behaviour locally so
that concrete rounds evaluate by `decide`. -/

attribute [local semireducible] Rat.mul Rat.add Rat.sub Rat.inv

lemma rat_floor_eq_floor (a : ℚ) : a.floor = ⌊a⌋ := by
  rw [Rat.floor_def', Rat.floor_def]

lemma py_int_eq (x : ℚ) : py_int x = if 0 ≤ x then ⌊x⌋ else ⌈x⌉ := by
  unfold py_int
  rw [rat_floor_eq_floor, rat_floor_eq_floor, Int.floor_neg, neg_neg]

lemma py_int_intCast (n : ℤ) : py_int (n : ℚ) = n := by
  rw [py_int_eq]; split <;> simp

lemma py_int_nonneg {x : ℚ} (h : 0 ≤ x) : 0 ≤ py_int x := by
  rw [py_int_eq, if_pos h]; exact Int.floor_nonneg.mpr h

lemma py_int_le_intCast {x : ℚ} {p : ℤ} (h : x ≤ (p : ℚ)) : py_int x ≤ p := by
  rw [py_int_eq]; split
  · calc ⌊x⌋ ≤ ⌊(p : ℚ)⌋ := Int.floor_le_floor h
      _ = p := Int.floor_intCast p
  · exact Int.ceil_le.mpr h

lemma procured_quantity_nonneg {q : ℤ} {y : ℚ} (hq : 0 ≤ q) (hy : 0 ≤ y) :
    0 ≤ procured_quantity q y :=
  py_int_nonneg (mul_nonneg (by exact_mod_cast hq) hy)

lemma received_quantity_nonneg (tr : Transporter) {p : ℤ} (dm : Bool)
    (hp : 0 ≤ p) (h1 : tr.damage_percentage ≤ 1) :
    0 ≤ received_quantity tr p dm := by
  unfold received_quantity
  split
  · next h =>
    have hp' : (0 : ℚ) ≤ (p : ℚ) := by exact_mod_cast hp
    have hle : py_int ((p : ℚ) * tr.damage_percentage) ≤ p :=
      py_int_le_intCast
        (by calc (p : ℚ) * tr.damage_percentage ≤ (p : ℚ) * 1 :=
              mul_le_mul_of_nonneg_left h1 hp'
            _ = (p : ℚ) := mul_one _)
    omega
  · exact hp

lemma received_quantity_le (tr : Transporter) {p : ℤ} (dm : Bool)
    (hdp : 0 ≤ tr.damage_percentage) (hp : 0 ≤ p) :
    received_quantity tr p dm ≤ p := by
  unfold received_quantity
  split
  · next _ =>
    have : 0 ≤ py_int ((p : ℚ) * tr.damage_percentage) :=
      py_int_nonneg (mul_nonneg (by exact_mod_cast hp) hdp)
    omega
  · exact le_refl p

/-! Projection lemmas unfolding one field of the round resolution. -/

lemma round_ledger_procured (sup : Supplier) (q : ℤ) (tr : Transporter)
    (d : Draws) (s : GameState) :
    (round_ledger sup q tr d s).procured = procured_quantity q d.yield_percentage := rfl

lemma round_ledger_received (sup : Supplier) (q : ℤ) (tr : Transporter)
    (d : Draws) (s : GameState) :
    (round_ledger sup q tr d s).received =
      received_quantity tr (procured_quantity q d.yield_percentage) d.damaged := rfl

lemma round_ledger_demand (sup : Supplier) (q : ℤ) (tr : Transporter)
    (d : Draws) (s : GameState) :
    (round_ledger sup q tr d s).demand = d.demand := rfl

lemma round_ledger_sold (sup : Supplier) (q : ℤ) (tr : Transporter)
    (d : Draws) (s : GameState) :
    (round_ledger sup q tr d s).sold =
      min (s.inventory + (round_ledger sup q tr d s).received) d.demand := rfl

lemma round_ledger_inventory (sup : Supplier) (q : ℤ) (tr : Transporter)
    (d : Draws) (s : GameState) :
    (round_ledger sup q tr d s).inventory =
      s.inventory + (round_ledger sup q tr d s).received -
        (round_ledger sup q tr d s).sold := rfl

lemma round_ledger_stockout_units (sup : Supplier) (q : ℤ) (tr : Transporter)
    (d : Draws) (s : GameState) :
    (round_ledger sup q tr d s).stockout_units =
      d.demand - (round_ledger sup q tr d s).sold := rfl

lemma round_ledger_satisfaction (sup : Supplier) (q : ℤ) (tr : Transporter)
    (d : Draws) (s : GameState) :
    (round_ledger sup q tr d s).satisfaction =
      updated_satisfaction s.satisfaction
        ((round_ledger sup q tr d s).stockout_units) := rfl

lemma round_ledger_total (sup : Supplier) (q : ℤ) (tr : Transporter)
    (d : Draws) (s : GameState) :
    (round_ledger sup q tr d s).round_total_cost =
      (round_ledger sup q tr d s).sourcing_cost +
        (round_ledger sup q tr d s).transport_cost +
        (round_ledger sup q tr d s).stockout_cost +
        (round_ledger sup q tr d s).holding_cost := rfl

lemma round_ledger_sourcing (sup : Supplier) (q : ℤ) (tr : Transporter)
    (d : Draws) (s : GameState) :
    (round_ledger sup q tr d s).sourcing_cost =
      (round_ledger sup q tr d s).procured * sup.cost := rfl

lemma round_ledger_transport (sup : Supplier) (q : ℤ) (tr : Transporter)
    (d : Draws) (s : GameState) :
    (round_ledger sup q tr d s).transport_cost =
      transport_cost_final tr (round_ledger sup q tr d s).procured d.disrupted := rfl

lemma round_ledger_stockout_cost (sup : Supplier) (q : ℤ) (tr : Transporter)
    (d : Draws) (s : GameState) :
    (round_ledger sup q tr d s).stockout_cost =
      (round_ledger sup q tr d s).stockout_units * STOCKOUT_PENALTY_PER_UNIT := rfl

lemma round_ledger_holding (sup : Supplier) (q : ℤ) (tr : Transporter)
    (d : Draws) (s : GameState) :
    (round_ledger sup q tr d s).holding_cost =
      (round_ledger sup q tr d s).inventory * HOLDING_COST_PER_UNIT := rfl

lemma round_ledger_revenue (sup : Supplier) (q : ℤ) (tr : Transporter)
    (d : Draws) (s : GameState) :
    (round_ledger sup q tr d s).revenue =
      (round_ledger sup q tr d s).sold * SELLING_PRICE_PER_UNIT := rfl

lemma round_ledger_cash (sup : Supplier) (q : ℤ) (tr : Transporter)
    (d : Draws) (s : GameState) :
    (round_ledger sup q tr d s).cash =
      s.cash + (round_ledger sup q tr d s).revenue -
        (round_ledger sup q tr d s).round_total_cost := rfl

lemma simulate_round_cash (sup : Supplier) (q : ℤ) (tr : Transporter)
    (d : Draws) (s : GameState) :
    (simulate_round sup q tr d s).cash = (round_ledger sup q tr d s).cash := rfl

lemma simulate_round_inventory (sup : Supplier) (q : ℤ) (tr : Transporter)
    (d : Draws) (s : GameState) :
    (simulate_round sup q tr d s).inventory =
      (round_ledger sup q tr d s).inventory := rfl

lemma simulate_round_satisfaction (sup : Supplier) (q : ℤ) (tr : Transporter)
    (d : Draws) (s : GameState) :
    (simulate_round sup q tr d s).satisfaction =
      (round_ledger sup q tr d s).satisfaction := rfl

lemma simulate_round_total_costs (sup : Supplier) (q : ℤ) (tr : Transporter)
    (d : Draws) (s : GameState) :
    (simulate_round sup q tr d s).total_costs_accumulated =
      s.total_costs_accumulated + (round_ledger sup q tr d s).round_total_cost := rfl

lemma simulate_round_game_over (sup : Supplier) (q : ℤ) (tr : Transporter)
    (d : Draws) (s : GameState) :
    (simulate_round sup q tr d s).game_over =
      (check_game_over (round_ledger sup q tr d s).cash
        (round_ledger sup q tr d s).satisfaction s.round
        (s.game_over, s.game_over_message)).1 := rfl

lemma simulate_round_message (sup : Supplier) (q : ℤ) (tr : Transporter)
    (d : Draws) (s : GameState) :
    (simulate_round sup q tr d s).game_over_message =
      (check_game_over (round_ledger sup q tr d s).cash
        (round_ledger sup q tr d s).satisfaction s.round
        (s.game_over, s.game_over_message)).2 := rfl

lemma simulate_round_round (sup : Supplier) (q : ℤ) (tr : Transporter)
    (d : Draws) (s : GameState) :
    (simulate_round sup q tr d s).round =
      if (simulate_round sup q tr d s).game_over then s.round else s.round + 1 := by
  unfold simulate_round
  split <;> simp_all

lemma simulate_round_history (sup : Supplier) (q : ℤ) (tr : Transporter)
    (d : Draws) (s : GameState) :
    (simulate_round sup q tr d s).history =
      s.history ++ [round_ledger sup q tr d s] := rfl

lemma py_int_zero : py_int 0 = 0 := by
  simpa using py_int_intCast 0

lemma procured_quantity_zero (y : ℚ) : procured_quantity 0 y = 0 := by
  unfold procured_quantity
  rw [Int.cast_zero, zero_mul, py_int_zero]

lemma received_quantity_zero (tr : Transporter) (dm : Bool) :
    received_quantity tr 0 dm = 0 := by
  unfold received_quantity
  split
  · next h => exact absurd h.2 (by omega)
  · rfl

lemma transport_cost_final_zero (tr : Transporter) (dis : Bool) :
    transport_cost_final tr 0 dis = if dis then tr.disruption_fee else 0 := by
  unfold transport_cost_final
  split <;> simp

/-! The claims. -/

/-- C1: any invalid call of the round-advancing path — the session
already over, or an order quantity that is negative or above the
configured maximum — is rejected before any mutation: the call returns an
error and the session state, every field and the ledger history included,
equals its pre-call value. -/
theorem C1_rejected_call_leaves_state_unchanged (sup : Supplier) (q : ℤ)
    (tr : Transporter) (d : Draws) (s : GameState)
    (h : s.game_over = true ∨ q < 0 ∨ ORDER_QUANTITY_MAX < q) :
    (∃ e, advance_round sup q tr d s = Except.error e) ∧
      advance_round_state sup q tr d s = s := by
  by_cases hgo : s.game_over = true
  · constructor
    · exact ⟨AdvanceError.sessionOver, by simp [advance_round, hgo]⟩
    · simp [advance_round_state, advance_round, hgo]
  · rcases h with h | h
    · exact absurd h hgo
    · constructor
      · exact ⟨AdvanceError.invalidQuantity, by
          simp only [advance_round]
          rw [if_neg (by simpa using hgo), if_pos h]⟩
      · simp only [advance_round_state, advance_round]
        rw [if_neg (by simpa using hgo), if_pos h]

/-- C1 witness: a negative order quantity against the fresh session is
rejected and leaves the state untouched. -/
theorem C1_witness :
    (init_game.game_over = true ∨ (-1 : ℤ) < 0 ∨ ORDER_QUANTITY_MAX < -1) ∧
    ((∃ e, advance_round alpha_goods (-1) standard_shipping
        ⟨1, false, false, 100⟩ init_game = Except.error e) ∧
      advance_round_state alpha_goods (-1) standard_shipping
        ⟨1, false, false, 100⟩ init_game = init_game) :=
  ⟨Or.inr (Or.inl (by decide)),
    C1_rejected_call_leaves_state_unchanged alpha_goods (-1) standard_shipping
      ⟨1, false, false, 100⟩ init_game (Or.inr (Or.inl (by decide)))⟩

/-- C2 counterexample: with order quantity 0 and the disruption draw
firing, the round's transport cost is the flat disruption fee (150 for
Standard Shipping), not 0, contradicting the claim that the transport
cost of a zero-order round is zero regardless of the disruption draw. -/
theorem C2_counterexample :
    (round_ledger alpha_goods 0 standard_shipping ⟨1, true, false, 80⟩
        init_game).transport_cost = 150 ∧
    ¬ (round_ledger alpha_goods 0 standard_shipping ⟨1, true, false, 80⟩
        init_game).transport_cost = 0 := by
  constructor <;> decide

/-- C2 (amended): with order quantity 0 the round procures nothing,
spends nothing on sourcing, receives nothing, and its transport cost is
exactly the flat disruption fee when the disruption draw fires and zero
otherwise; all remaining effects are the demand-driven sale of existing
inventory with its revenue, holding cost, stockout cost and satisfaction
change. -/
theorem C2_amended_zero_order_round (sup : Supplier) (tr : Transporter)
    (d : Draws) (s : GameState) :
    (round_ledger sup 0 tr d s).procured = 0 ∧
    (round_ledger sup 0 tr d s).sourcing_cost = 0 ∧
    (round_ledger sup 0 tr d s).received = 0 ∧
    (round_ledger sup 0 tr d s).transport_cost =
      (if d.disrupted then tr.disruption_fee else 0) ∧
    (round_ledger sup 0 tr d s).sold = min s.inventory d.demand ∧
    (round_ledger sup 0 tr d s).revenue =
      min s.inventory d.demand * SELLING_PRICE_PER_UNIT ∧
    (round_ledger sup 0 tr d s).inventory =
      s.inventory - min s.inventory d.demand ∧
    (round_ledger sup 0 tr d s).stockout_units =
      d.demand - min s.inventory d.demand ∧
    (round_ledger sup 0 tr d s).holding_cost =
      (s.inventory - min s.inventory d.demand) * HOLDING_COST_PER_UNIT ∧
    (round_ledger sup 0 tr d s).stockout_cost =
      (d.demand - min s.inventory d.demand) * STOCKOUT_PENALTY_PER_UNIT ∧
    (round_ledger sup 0 tr d s).satisfaction =
      updated_satisfaction s.satisfaction (d.demand - min s.inventory d.demand) := by
  have hp : procured_quantity 0 d.yield_percentage = 0 :=
    procured_quantity_zero _
  refine ⟨?_, ?_, ?_, ?_, ?_, ?_, ?_, ?_, ?_, ?_, ?_⟩ <;>
    simp only [round_ledger_procured, round_ledger_sourcing,
      round_ledger_received, round_ledger_transport, round_ledger_sold,
      round_ledger_revenue, round_ledger_inventory,
      round_ledger_stockout_units, round_ledger_holding,
      round_ledger_stockout_cost, round_ledger_satisfaction,
      round_ledger_demand, hp, received_quantity_zero,
      transport_cost_final_zero, zero_mul, add_zero]

/-- C3: the fixed fully-successful round — yield 1, no disruption, no
damage, demand 150, order 150 from the 20-per-unit supplier shipped at 5
per unit into 100 units of starting inventory — produces exactly the
quantities, costs, revenue, cash delta and clamped satisfaction bonus the
specification lists. -/
theorem C3_fixed_round_numbers :
    (round_ledger alpha_goods 150 standard_shipping ⟨1, false, false, 150⟩
        init_game).procured = 150 ∧
    (round_ledger alpha_goods 150 standard_shipping ⟨1, false, false, 150⟩
        init_game).received = 150 ∧
    init_game.inventory + (round_ledger alpha_goods 150 standard_shipping
        ⟨1, false, false, 150⟩ init_game).received = 250 ∧
    (round_ledger alpha_goods 150 standard_shipping ⟨1, false, false, 150⟩
        init_game).sold = 150 ∧
    (round_ledger alpha_goods 150 standard_shipping ⟨1, false, false, 150⟩
        init_game).stockout_units = 0 ∧
    (round_ledger alpha_goods 150 standard_shipping ⟨1, false, false, 150⟩
        init_game).inventory = 100 ∧
    (round_ledger alpha_goods 150 standard_shipping ⟨1, false, false, 150⟩
        init_game).revenue = 7500 ∧
    (round_ledger alpha_goods 150 standard_shipping ⟨1, false, false, 150⟩
        init_game).sourcing_cost = 3000 ∧
    (round_ledger alpha_goods 150 standard_shipping ⟨1, false, false, 150⟩
        init_game).transport_cost = 750 ∧
    (round_ledger alpha_goods 150 standard_shipping ⟨1, false, false, 150⟩
        init_game).holding_cost = 200 ∧
    (round_ledger alpha_goods 150 standard_shipping ⟨1, false, false, 150⟩
        init_game).stockout_cost = 0 ∧
    (round_ledger alpha_goods 150 standard_shipping ⟨1, false, false, 150⟩
        init_game).round_total_cost = 3950 ∧
    (simulate_round alpha_goods 150 standard_shipping ⟨1, false, false, 150⟩
        init_game).cash = init_game.cash + 3550 ∧
    (simulate_round alpha_goods 150 standard_shipping ⟨1, false, false, 150⟩
        init_game).satisfaction =
      max 0 (min 100 (init_game.satisfaction + 5)) := by
  decide

/-- C5: after every resolved round the satisfaction lies in [0, 100],
whatever the starting value and the magnitude of the stockout penalty or
fulfillment bonus: the clamp is applied on both branches. -/
theorem C5_satisfaction_clamped (sup : Supplier) (q : ℤ) (tr : Transporter)
    (d : Draws) (s : GameState) :
    0 ≤ (simulate_round sup q tr d s).satisfaction ∧
      (simulate_round sup q tr d s).satisfaction ≤ 100 := by
  rw [simulate_round_satisfaction, round_ledger_satisfaction]
  unfold updated_satisfaction
  constructor
  · exact le_max_left _ _
  · exact max_le (by norm_num) (min_le_left _ _)

/-- C6: for a round resolved from non-negative inventory with a
non-negative order quantity, units sold never exceed demand nor the
available stock, and the ending inventory is exactly
inventory + received − sold and never negative. -/
theorem C6_inventory_invariants (sup : Supplier) (q : ℤ) (tr : Transporter)
    (d : Draws) (s : GameState) (hinv : 0 ≤ s.inventory) (hq : 0 ≤ q) :
    (round_ledger sup q tr d s).sold ≤ (round_ledger sup q tr d s).demand ∧
    (round_ledger sup q tr d s).sold ≤
      s.inventory + (round_ledger sup q tr d s).received ∧
    (round_ledger sup q tr d s).inventory =
      s.inventory + (round_ledger sup q tr d s).received -
        (round_ledger sup q tr d s).sold ∧
    0 ≤ (round_ledger sup q tr d s).inventory := by
  refine ⟨?_, ?_, round_ledger_inventory sup q tr d s, ?_⟩
  · rw [round_ledger_sold, round_ledger_demand]
    exact min_le_right _ _
  · rw [round_ledger_sold]
    exact min_le_left _ _
  · rw [round_ledger_inventory, round_ledger_sold]
    have := min_le_left (s.inventory + (round_ledger sup q tr d s).received)
      d.demand
    omega

/-- C6 witness: the invariants at the fully-successful concrete round. -/
theorem C6_witness :
    (0 ≤ init_game.inventory ∧ 0 ≤ (150 : ℤ)) ∧
    ((round_ledger alpha_goods 150 standard_shipping ⟨1, false, false, 150⟩
        init_game).sold ≤
      (round_ledger alpha_goods 150 standard_shipping ⟨1, false, false, 150⟩
        init_game).demand ∧
    (round_ledger alpha_goods 150 standard_shipping ⟨1, false, false, 150⟩
        init_game).sold ≤
      init_game.inventory + (round_ledger alpha_goods 150 standard_shipping
        ⟨1, false, false, 150⟩ init_game).received ∧
    (round_ledger alpha_goods 150 standard_shipping ⟨1, false, false, 150⟩
        init_game).inventory =
      init_game.inventory + (round_ledger alpha_goods 150 standard_shipping
        ⟨1, false, false, 150⟩ init_game).received -
        (round_ledger alpha_goods 150 standard_shipping ⟨1, false, false, 150⟩
          init_game).sold ∧
    0 ≤ (round_ledger alpha_goods 150 standard_shipping ⟨1, false, false, 150⟩
        init_game).inventory) :=
  ⟨⟨by decide, by decide⟩,
    C6_inventory_invariants alpha_goods 150 standard_shipping
      ⟨1, false, false, 150⟩ init_game (by decide) (by decide)⟩

/-- C4: when the post-round cash and satisfaction are both at or below
their thresholds, the game-over check reports bankruptcy, not customer
exodus: the cash check has precedence. -/
theorem C4_bankruptcy_takes_priority (sup : Supplier) (q : ℤ)
    (tr : Transporter) (d : Draws) (s : GameState)
    (hc : (simulate_round sup q tr d s).cash ≤ BANKRUPTCY_THRESHOLD)
    (hs : (simulate_round sup q tr d s).satisfaction ≤
      LOW_SATISFACTION_THRESHOLD) :
    (simulate_round sup q tr d s).game_over = true ∧
      (simulate_round sup q tr d s).game_over_message =
        GameOverMessage.bankruptcy := by
  rw [simulate_round_cash] at hc
  rw [simulate_round_game_over, simulate_round_message]
  unfold check_game_over
  rw [if_pos hc]
  exact ⟨rfl, rfl⟩

/-- C4 witness: a round that simultaneously bankrupts the company and
floors satisfaction reports bankruptcy. -/
theorem C4_witness :
    ((simulate_round alpha_goods 0 standard_shipping ⟨1, false, false, 200⟩
        sample_broke_state).cash ≤ BANKRUPTCY_THRESHOLD ∧
      (simulate_round alpha_goods 0 standard_shipping ⟨1, false, false, 200⟩
        sample_broke_state).satisfaction ≤ LOW_SATISFACTION_THRESHOLD) ∧
    ((simulate_round alpha_goods 0 standard_shipping ⟨1, false, false, 200⟩
        sample_broke_state).game_over = true ∧
      (simulate_round alpha_goods 0 standard_shipping ⟨1, false, false, 200⟩
        sample_broke_state).game_over_message =
          GameOverMessage.bankruptcy) :=
  ⟨⟨by decide, by decide⟩,
    C4_bankruptcy_takes_priority alpha_goods 0 standard_shipping
      ⟨1, false, false, 200⟩ sample_broke_state (by decide) (by decide)⟩

lemma check_game_over_of_running {c t r : ℤ} {p : Bool × GameOverMessage}
    (hc : BANKRUPTCY_THRESHOLD < c) (ht : LOW_SATISFACTION_THRESHOLD < t) :
    check_game_over c t r p =
      if MAX_ROUNDS ≤ r then (true, GameOverMessage.endOfTerm) else p := by
  unfold check_game_over
  rw [if_neg (by omega), if_neg (by omega)]

/-- C7: in a round that triggers neither bankruptcy nor customer exodus,
the game ends with the end-of-term message exactly when the round
numbered `MAX_ROUNDS` has been resolved, the counter is incremented
exactly when the round did not end the game, and once the game is over
the round-advancing path no longer changes the state. -/
theorem C7_end_of_term_exactly_at_max_round (sup : Supplier) (q : ℤ)
    (tr : Transporter) (d : Draws) (s : GameState)
    (hrun : s.game_over = false)
    (hcash : BANKRUPTCY_THRESHOLD < (simulate_round sup q tr d s).cash)
    (hsat : LOW_SATISFACTION_THRESHOLD <
      (simulate_round sup q tr d s).satisfaction) :
    ((simulate_round sup q tr d s).game_over = true ↔ MAX_ROUNDS ≤ s.round) ∧
    (MAX_ROUNDS ≤ s.round → (simulate_round sup q tr d s).round = s.round ∧
      (simulate_round sup q tr d s).game_over_message =
        GameOverMessage.endOfTerm) ∧
    (s.round < MAX_ROUNDS →
      (simulate_round sup q tr d s).round = s.round + 1 ∧
      (simulate_round sup q tr d s).game_over = false) ∧
    (∀ t2 : GameState, t2.game_over = true → ∀ (sup2 : Supplier) (q2 : ℤ)
      (tr2 : Transporter) (d2 : Draws),
      advance_round_state sup2 q2 tr2 d2 t2 = t2) := by
  have hrej : ∀ t2 : GameState, t2.game_over = true → ∀ (sup2 : Supplier)
      (q2 : ℤ) (tr2 : Transporter) (d2 : Draws),
      advance_round_state sup2 q2 tr2 d2 t2 = t2 := by
    intro t2 h2 sup2 q2 tr2 d2
    simp [advance_round_state, advance_round, h2]
  rw [simulate_round_cash] at hcash
  rw [simulate_round_satisfaction] at hsat
  have hgo := simulate_round_game_over sup q tr d s
  have hmsg := simulate_round_message sup q tr d s
  rw [check_game_over_of_running hcash hsat] at hgo hmsg
  by_cases hr12 : MAX_ROUNDS ≤ s.round
  · rw [if_pos hr12] at hgo hmsg
    refine ⟨⟨fun _ => hr12, fun _ => hgo⟩, fun _ => ⟨?_, hmsg⟩,
      fun hlt => absurd hr12 (not_le.mpr hlt), hrej⟩
    rw [simulate_round_round, hgo]
    simp
  · rw [if_neg hr12] at hgo hmsg
    have hgo2 : (simulate_round sup q tr d s).game_over = false := by
      rw [hgo, hrun]
    refine ⟨⟨fun hov => ?_, fun h12 => absurd h12 hr12⟩,
      fun h12 => absurd h12 hr12, fun _ => ⟨?_, hgo2⟩, hrej⟩
    · rw [hgo2] at hov
      exact absurd hov (by simp)
    · rw [simulate_round_round, hgo2]
      simp

/-- C7 witness: resolving the round numbered 12 from the fresh session
parameters ends the game with the end-of-term message, and a finished
state is no longer advanced. -/
theorem C7_witness :
    (sample_round12_state.game_over = false ∧
      BANKRUPTCY_THRESHOLD < (simulate_round alpha_goods 0 standard_shipping
        ⟨1, false, false, 80⟩ sample_round12_state).cash ∧
      LOW_SATISFACTION_THRESHOLD <
        (simulate_round alpha_goods 0 standard_shipping ⟨1, false, false, 80⟩
          sample_round12_state).satisfaction) ∧
    (((simulate_round alpha_goods 0 standard_shipping ⟨1, false, false, 80⟩
        sample_round12_state).game_over = true ↔
      MAX_ROUNDS ≤ sample_round12_state.round) ∧
    (MAX_ROUNDS ≤ sample_round12_state.round →
      (simulate_round alpha_goods 0 standard_shipping ⟨1, false, false, 80⟩
        sample_round12_state).round = sample_round12_state.round ∧
      (simulate_round alpha_goods 0 standard_shipping ⟨1, false, false, 80⟩
        sample_round12_state).game_over_message =
          GameOverMessage.endOfTerm) ∧
    (sample_round12_state.round < MAX_ROUNDS →
      (simulate_round alpha_goods 0 standard_shipping ⟨1, false, false, 80⟩
        sample_round12_state).round = sample_round12_state.round + 1 ∧
      (simulate_round alpha_goods 0 standard_shipping ⟨1, false, false, 80⟩
        sample_round12_state).game_over = false) ∧
    (∀ t2 : GameState, t2.game_over = true → ∀ (sup2 : Supplier) (q2 : ℤ)
      (tr2 : Transporter) (d2 : Draws),
      advance_round_state sup2 q2 tr2 d2 t2 = t2)) :=
  ⟨⟨by decide, by decide, by decide⟩,
    C7_end_of_term_exactly_at_max_round alpha_goods 0 standard_shipping
      ⟨1, false, false, 80⟩ sample_round12_state (by decide) (by decide)
      (by decide)⟩

/-- C8: on a finished session the final score is
cash + satisfaction * 100 − cumulative costs / 10, and it depends on
nothing but those three state fields. -/
theorem C8_final_score_from_three_fields (s : GameState)
    (h : s.game_over = true) :
    final_score s = (s.cash : ℚ) + (s.satisfaction : ℚ) * 100 -
        (s.total_costs_accumulated : ℚ) / 10 ∧
    ∀ t : GameState, t.cash = s.cash → t.satisfaction = s.satisfaction →
      t.total_costs_accumulated = s.total_costs_accumulated →
      final_score t = final_score s := by
  refine ⟨rfl, ?_⟩
  intro t h1 h2 h3
  unfold final_score
  rw [h1, h2, h3]

/-- C8 witness: the score formula at a concrete finished state. -/
theorem C8_witness :
    sample_over_state.game_over = true ∧
    (final_score sample_over_state =
        (sample_over_state.cash : ℚ) +
          (sample_over_state.satisfaction : ℚ) * 100 -
          (sample_over_state.total_costs_accumulated : ℚ) / 10 ∧
      ∀ t : GameState, t.cash = sample_over_state.cash →
        t.satisfaction = sample_over_state.satisfaction →
        t.total_costs_accumulated = sample_over_state.total_costs_accumulated →
        final_score t = final_score sample_over_state) :=
  ⟨rfl, C8_final_score_from_three_fields sample_over_state rfl⟩

lemma transport_cost_final_nonneg (tr : Transporter) {p : ℤ} (dis : Bool)
    (hp : 0 ≤ p) (htc : 0 ≤ tr.cost) (hfee : 0 ≤ tr.disruption_fee) :
    0 ≤ transport_cost_final tr p dis := by
  unfold transport_cost_final
  split
  · exact add_nonneg (mul_nonneg hp htc) hfee
  · exact mul_nonneg hp htc

/-- C9: a round resolved from non-negative inventory with a non-negative
order quantity, a non-negative yield draw and catalog-shaped costs has a
non-negative round total cost, and the accumulated total costs never
decrease across a round. -/
theorem C9_round_cost_nonneg_costs_monotone (sup : Supplier) (q : ℤ)
    (tr : Transporter) (d : Draws) (s : GameState)
    (hinv : 0 ≤ s.inventory) (hq : 0 ≤ q) (hy : 0 ≤ d.yield_percentage)
    (hsc : 0 ≤ sup.cost) (htc : 0 ≤ tr.cost)
    (hfee : 0 ≤ tr.disruption_fee) :
    0 ≤ (round_ledger sup q tr d s).round_total_cost ∧
    (simulate_round sup q tr d s).total_costs_accumulated =
      s.total_costs_accumulated +
        (round_ledger sup q tr d s).round_total_cost ∧
    s.total_costs_accumulated ≤
      (simulate_round sup q tr d s).total_costs_accumulated := by
  have hp : 0 ≤ procured_quantity q d.yield_percentage :=
    procured_quantity_nonneg hq hy
  have h1 : 0 ≤ (round_ledger sup q tr d s).sourcing_cost := by
    rw [round_ledger_sourcing, round_ledger_procured]
    exact mul_nonneg hp hsc
  have h2 : 0 ≤ (round_ledger sup q tr d s).transport_cost := by
    rw [round_ledger_transport, round_ledger_procured]
    exact transport_cost_final_nonneg tr d.disrupted hp htc hfee
  have h3 : 0 ≤ (round_ledger sup q tr d s).stockout_cost := by
    rw [round_ledger_stockout_cost, round_ledger_stockout_units]
    have hs := min_le_right (s.inventory + (round_ledger sup q tr d s).received)
      d.demand
    rw [round_ledger_sold]
    exact mul_nonneg (by omega) (by norm_num [STOCKOUT_PENALTY_PER_UNIT])
  have h4 : 0 ≤ (round_ledger sup q tr d s).holding_cost := by
    rw [round_ledger_holding]
    have hend : 0 ≤ (round_ledger sup q tr d s).inventory := by
      rw [round_ledger_inventory, round_ledger_sold]
      have := min_le_left (s.inventory + (round_ledger sup q tr d s).received)
        d.demand
      omega
    exact mul_nonneg hend (by norm_num [HOLDING_COST_PER_UNIT])
  have htot : 0 ≤ (round_ledger sup q tr d s).round_total_cost := by
    rw [round_ledger_total]
    omega
  refine ⟨htot, simulate_round_total_costs sup q tr d s, ?_⟩
  rw [simulate_round_total_costs]
  omega

/-- C9 witness: cost non-negativity and monotonicity at the
fully-successful concrete round. -/
theorem C9_witness :
    (0 ≤ init_game.inventory ∧ 0 ≤ (150 : ℤ) ∧
      0 ≤ (⟨1, false, false, 150⟩ : Draws).yield_percentage ∧
      0 ≤ alpha_goods.cost ∧ 0 ≤ standard_shipping.cost ∧
      0 ≤ standard_shipping.disruption_fee) ∧
    (0 ≤ (round_ledger alpha_goods 150 standard_shipping ⟨1, false, false, 150⟩
        init_game).round_total_cost ∧
      (simulate_round alpha_goods 150 standard_shipping ⟨1, false, false, 150⟩
        init_game).total_costs_accumulated =
        init_game.total_costs_accumulated +
          (round_ledger alpha_goods 150 standard_shipping
            ⟨1, false, false, 150⟩ init_game).round_total_cost ∧
      init_game.total_costs_accumulated ≤
        (simulate_round alpha_goods 150 standard_shipping
          ⟨1, false, false, 150⟩ init_game).total_costs_accumulated) :=
  ⟨⟨by decide, by decide, by decide, by decide, by decide, by decide⟩,
    C9_round_cost_nonneg_costs_monotone alpha_goods 150 standard_shipping
      ⟨1, false, false, 150⟩ init_game (by decide) (by decide) (by decide)
      (by decide) (by decide) (by decide)⟩

lemma check_game_over_false_round {c t r : ℤ} {p : Bool × GameOverMessage}
    (h : (check_game_over c t r p).1 = false) : r < MAX_ROUNDS := by
  unfold check_game_over at h
  rcases le_or_lt c BANKRUPTCY_THRESHOLD with hc | hc
  · rw [if_pos hc] at h
    simp at h
  · rw [if_neg (not_le.mpr hc)] at h
    rcases le_or_lt t LOW_SATISFACTION_THRESHOLD with ht | ht
    · rw [if_pos ht] at h
      simp at h
    · rw [if_neg (not_le.mpr ht)] at h
      rcases le_or_lt MAX_ROUNDS r with hr | hr
      · rw [if_pos hr] at h
        simp at h
      · exact hr

/-- C10: every state reachable from the initial state through the
round-advancing path keeps the round counter between 1 and `MAX_ROUNDS`:
reaching `MAX_ROUNDS` ends the game and the counter is incremented only
while the game is not over. -/
theorem C10_round_counter_bounds (s : GameState) (h : Reachable s) :
    1 ≤ s.round ∧ s.round ≤ MAX_ROUNDS := by
  induction h with
  | init => exact ⟨by decide, by decide⟩
  | step sup q tr d hr hok ih =>
    rename_i s1 s2
    unfold advance_round at hok
    split_ifs at hok
    have heq : simulate_round sup q tr d s1 = s2 := by injection hok
    subst heq
    rw [simulate_round_round]
    split
    · exact ih
    · next hgo =>
      have hfalse : (simulate_round sup q tr d s1).game_over = false := by
        cases hgo2 : (simulate_round sup q tr d s1).game_over
        · rfl
        · exact absurd hgo2 hgo
      rw [simulate_round_game_over] at hfalse
      have hlt := check_game_over_false_round hfalse
      exact ⟨by omega, by omega⟩

/-- C10 witness: the bounds at the initial state. -/
theorem C10_witness :
    Reachable init_game ∧
      (1 ≤ init_game.round ∧ init_game.round ≤ MAX_ROUNDS) :=
  ⟨Reachable.init, C10_round_counter_bounds init_game Reachable.init⟩

end StrategyGame
